import Mathlib

/-!
Shallow embedding of the exercise-form analysis engine
(src/backend/services/pose_analyzer.py).

Modelling conventions:
* A MoveNet keypoint dict is a `Point`: numeric `x`, `y` (rationals stand for
  the Python floats) and an optional confidence `score`.  Per the input
  contract every landmark record carries numeric x and y, so `_get_point`'s
  field check always passes and only the index-bounds check remains.
* The Python angle dict `Dict[str, Optional[float]]` is an association list
  `AngleMap`: a key can be absent, or present with value `None` (`none`), or
  present with a number.  `amGet` is `d.get(k)` (absent and `None` collapse
  to `none`), `amGetD` is `d.get(k, default)` (the default is returned only
  when the key is absent).
* Python truthiness of a `float | None` value (`if angle:`) is `pyTruthy`:
  `None` and `0.0` are falsy.  Truthiness of a keypoint dict is `Option.isSome`
  (the dicts handled here are never empty).
* Angle values are real numbers; `math.sqrt`, `math.acos`, `math.degrees`
  are `Real.sqrt`, `Real.arccos` and multiplication by `180 / π`.
  The decision procedures (classifier, stage detector, scorers) are generic
  in a linear ordered field `α` so that they can be run both on the real
  angle maps produced by `calculate_joint_angles` and, for concrete test
  inputs, on rational angle maps where every comparison is decidable.
-/

structure Point where
  x : ℚ
  y : ℚ
  score : Option ℚ
deriving DecidableEq

abbrev Frame := List Point

abbrev AngleMap (α : Type) := List (String × Option α)

/-- Python `d.get(k)` on an angle dict: `none` both when the key is absent and
when it is present with value `None`. -/
def amGet {α : Type} (m : AngleMap α) (k : String) : Option α :=
  match m with
  | [] => none
  | p :: rest => if p.1 = k then p.2 else amGet rest k

/-- Python `d.get(k, default)` on an angle dict: the default only when the key
is absent; a key present with value `None` still yields `none`. -/
def amGetD {α : Type} (m : AngleMap α) (k : String) (d : α) : Option α :=
  match m with
  | [] => some d
  | p :: rest => if p.1 = k then p.2 else amGetD rest k d

/-- Python truthiness of a `float | None` value: `None` and `0.0` are falsy. -/
def pyTruthy {α : Type} [LinearOrderedField α] (o : Option α) : Bool :=
  match o with
  | none => false
  | some v => decide (v ≠ 0)

/-- The numeric value of a truthy angle (only used under a `pyTruthy` guard,
so the default is never observed). -/
def pyVal {α : Type} [LinearOrderedField α] (o : Option α) : α :=
  o.getD 0

/-- `self.joint_indices`: the MoveNet landmark-name-to-index dictionary. -/
def joint_indices (name : String) : Option Nat :=
  if name = "nose" then some 0
  else if name = "left_eye" then some 1
  else if name = "right_eye" then some 2
  else if name = "left_ear" then some 3
  else if name = "right_ear" then some 4
  else if name = "left_shoulder" then some 5
  else if name = "right_shoulder" then some 6
  else if name = "left_elbow" then some 7
  else if name = "right_elbow" then some 8
  else if name = "left_wrist" then some 9
  else if name = "right_wrist" then some 10
  else if name = "left_hip" then some 11
  else if name = "right_hip" then some 12
  else if name = "left_knee" then some 13
  else if name = "right_knee" then some 14
  else if name = "left_ankle" then some 15
  else if name = "right_ankle" then some 16
  else none

/-- `_get_point`: name lookup, then index-bounds check.  (The `"x" in kp`,
`"y" in kp` check always passes: see the modelling conventions.) -/
def get_point (kps : Frame) (name : String) : Option Point :=
  match joint_indices name with
  | none => none
  | some i => kps.get? i

/-- `"score" in point and point["score"] < min_confidence` with
`min_confidence = 0.2`. -/
def low_conf (p : Point) : Bool :=
  match p.score with
  | some s => decide (s < 1 / 5)
  | none => false

/-- `_calculate_angle`: the angle (in degrees) at vertex `point2` between
`point1` and `point3`, or `none` when a point is missing, a confidence is
present and below the threshold, or a vector has zero magnitude. -/
noncomputable def calculate_angle (point1 point2 point3 : Option Point) :
    Option ℝ :=
  match point1, point2, point3 with
  | some p1, some p2, some p3 =>
    if low_conf p1 || low_conf p2 || low_conf p3 then none
    else
      let v1x : ℝ := (p1.x : ℝ) - (p2.x : ℝ)
      let v1y : ℝ := (p1.y : ℝ) - (p2.y : ℝ)
      let v2x : ℝ := (p3.x : ℝ) - (p2.x : ℝ)
      let v2y : ℝ := (p3.y : ℝ) - (p2.y : ℝ)
      let dot_product : ℝ := v1x * v2x + v1y * v2y
      let magnitude1 : ℝ := Real.sqrt (v1x ^ 2 + v1y ^ 2)
      let magnitude2 : ℝ := Real.sqrt (v2x ^ 2 + v2y ^ 2)
      if magnitude1 * magnitude2 = 0 then none
      else
        let cosine : ℝ := dot_product / (magnitude1 * magnitude2)
        let cosine : ℝ := max (-1) (min 1 cosine)
        some (Real.arccos cosine * (180 / Real.pi))
  | _, _, _ => none

/-- `_calculate_joint_angles`: the nine named joint angles.  An empty dict
when the frame has fewer than 17 keypoints (`not keypoints` is subsumed by
the length test).  With at least 17 keypoints every `_get_point` lookup
succeeds, so all eight limb angles are inserted, and `torso_vertical` is
inserted whenever the left shoulder and left hip are found. -/
noncomputable def calculate_joint_angles (kps : Frame) : AngleMap ℝ :=
  if kps.length < 17 then []
  else
    let base : AngleMap ℝ :=
      [ ("left_elbow", calculate_angle (get_point kps "left_shoulder")
          (get_point kps "left_elbow") (get_point kps "left_wrist")),
        ("right_elbow", calculate_angle (get_point kps "right_shoulder")
          (get_point kps "right_elbow") (get_point kps "right_wrist")),
        ("left_shoulder", calculate_angle (get_point kps "left_elbow")
          (get_point kps "left_shoulder") (get_point kps "left_hip")),
        ("right_shoulder", calculate_angle (get_point kps "right_elbow")
          (get_point kps "right_shoulder") (get_point kps "right_hip")),
        ("left_hip", calculate_angle (get_point kps "left_shoulder")
          (get_point kps "left_hip") (get_point kps "left_knee")),
        ("right_hip", calculate_angle (get_point kps "right_shoulder")
          (get_point kps "right_hip") (get_point kps "right_knee")),
        ("left_knee", calculate_angle (get_point kps "left_hip")
          (get_point kps "left_knee") (get_point kps "left_ankle")),
        ("right_knee", calculate_angle (get_point kps "right_hip")
          (get_point kps "right_knee") (get_point kps "right_ankle")) ]
    match get_point kps "left_shoulder", get_point kps "left_hip" with
    | some ls, some lh =>
      base ++
        [ ("torso_vertical", calculate_angle
            (some { x := lh.x, y := lh.y - 100, score := some 1 })
            (some lh) (some ls)) ]
    | _, _ => base

section Decisions

variable {α : Type} [LinearOrderedField α]

/-- The source's early-return chain: the first rule to produce a label
wins.  (The rules are pure, so evaluating a later rule eagerly is
indistinguishable from Python's early `return`.) -/
def rule_chain (r1 r2 r3 : Option String) : Option String :=
  match r1 with
  | some t => some t
  | none =>
    match r2 with
    | some t => some t
    | none => r3

/-- `_detect_exercise_type`: ordered rule-based classification.  Returns
`none` ("undetected") when a shoulder or hip landmark is missing or when no
rule fires. -/
def detect_exercise_type (kps : Frame) (angles : AngleMap α) :
    Option String :=
  let left_shoulder := get_point kps "left_shoulder"
  let right_shoulder := get_point kps "right_shoulder"
  let left_hip := get_point kps "left_hip"
  let right_hip := get_point kps "right_hip"
  let left_knee := get_point kps "left_knee"
  let right_knee := get_point kps "right_knee"
  match left_shoulder, right_shoulder, left_hip, right_hip with
  | some lsp, some rsp, some lhp, some rhp =>
    let shoulder_y := (lsp.y + rsp.y) / 2
    let hip_y := (lhp.y + rhp.y) / 2
    let torso_vertical_dist := |shoulder_y - hip_y|
    -- (the source also computes an unused torso_horizontal_dist)
    let rule1 : Option String :=
      if torso_vertical_dist < 30 then
        let left_elbow := amGet angles "left_elbow"
        let right_elbow := amGet angles "right_elbow"
        if pyTruthy left_elbow && pyTruthy right_elbow then
          if (pyVal left_elbow + pyVal right_elbow) / 2 < 120 then
            some "push_up"
          else some "plank"
        else none
      else none
    let rule2 : Option String :=
      if left_knee.isSome && right_knee.isSome then
        let left_knee_angle := amGet angles "left_knee"
        let right_knee_angle := amGet angles "right_knee"
        if pyTruthy left_knee_angle && pyTruthy right_knee_angle then
          if (pyVal left_knee_angle + pyVal right_knee_angle) / 2 < 160 then
            some "squat"
          else none
        else none
      else none
    let shoulder_width := |lsp.x - rsp.x|
    let hip_width := |lhp.x - rhp.x|
    let rule3 : Option String :=
      if shoulder_width > hip_width * (3 / 2) then some "jumping_jack"
      else none
    rule_chain rule1 rule2 rule3
  | _, _, _, _ => none

/-- `_detect_exercise_stage`: discrete phase from the angle map.  Absent
elbow/knee keys default to `180`; a `None` or `0` value sends the average to
`180` through the truthiness guard.  Absent shoulder keys default to `0`, so
for jumping jacks a missing, `None` or `0` shoulder angle forces `"neutral"`. -/
def detect_exercise_stage (exercise_type : String) (angles : AngleMap α) :
    String :=
  if exercise_type = "push_up" then
    let left_elbow := amGetD angles "left_elbow" 180
    let right_elbow := amGetD angles "right_elbow" 180
    let avg_elbow_angle :=
      if pyTruthy left_elbow && pyTruthy right_elbow then
        (pyVal left_elbow + pyVal right_elbow) / 2
      else 180
    if avg_elbow_angle < 100 then "down"
    else if avg_elbow_angle > 160 then "up"
    else "neutral"
  else if exercise_type = "squat" then
    let left_knee := amGetD angles "left_knee" 180
    let right_knee := amGetD angles "right_knee" 180
    let avg_knee_angle :=
      if pyTruthy left_knee && pyTruthy right_knee then
        (pyVal left_knee + pyVal right_knee) / 2
      else 180
    if avg_knee_angle < 120 then "down"
    else if avg_knee_angle > 160 then "up"
    else "neutral"
  else if exercise_type = "jumping_jack" then
    let left_shoulder := amGetD angles "left_shoulder" 0
    let right_shoulder := amGetD angles "right_shoulder" 0
    if pyTruthy left_shoulder && pyTruthy right_shoulder then
      let avg_shoulder_angle := (pyVal left_shoulder + pyVal right_shoulder) / 2
      if avg_shoulder_angle > 80 then "up"
      else if avg_shoulder_angle < 30 then "down"
      else "neutral"
    else "neutral"
  else "neutral"

/-- The source's recurring statement pair `feedback.append(msg)` /
`score -= pen`, fired when `cond` holds: one scoring rule applied to the
running `(score, feedback)` accumulator. -/
def check_fire (cond : Prop) [Decidable cond] (pen : α) (msg : String)
    (acc : α × List String) : α × List String :=
  if cond then (acc.1 - pen, acc.2 ++ [msg]) else acc

/-- An `if cond1: ... elif cond2: ...` pair of scoring rules. -/
def check_fire2 (cond1 : Prop) [Decidable cond1] (pen1 : α) (msg1 : String)
    (cond2 : Prop) [Decidable cond2] (pen2 : α) (msg2 : String)
    (acc : α × List String) : α × List String :=
  if cond1 then (acc.1 - pen1, acc.2 ++ [msg1])
  else if cond2 then (acc.1 - pen2, acc.2 ++ [msg2])
  else acc

/-- The tail every analyzer shares: `if not feedback: feedback.append(affirm)`
followed by `score = max(0.0, min(1.0, score))`. -/
def finalize (affirm : String) (acc : α × List String) : α × List String :=
  let acc2 := if acc.2 = [] then (acc.1, [affirm]) else acc
  (max 0 (min 1 acc2.1), acc2.2)

/-- `_analyze_push_up`: form score and feedback for a push-up.  The pair
`(score, feedback)` is threaded through the source's three checks in order;
the final two statements add the affirmative message when no rule fired and
clamp the score to `[0, 1]`. -/
noncomputable def analyze_push_up (kps : Frame) (angles : AngleMap α) :
    α × List String :=
  let left_shoulder := get_point kps "left_shoulder"
  let right_shoulder := get_point kps "right_shoulder"
  let left_hip := get_point kps "left_hip"
  let right_hip := get_point kps "right_hip"
  let left_ankle := get_point kps "left_ankle"
  let right_ankle := get_point kps "right_ankle"
  -- Check back alignment (hips should be in line with shoulders)
  let acc1 : α × List String :=
    match left_shoulder, right_shoulder, left_hip, right_hip with
    | some lsp, some rsp, some lhp, some rhp =>
      let shoulder_y := (lsp.y + rsp.y) / 2
      let hip_y := (lhp.y + rhp.y) / 2
      if |shoulder_y - hip_y| > 30 then
        check_fire2 (hip_y < shoulder_y - 20) (1/4)
          "Lower your hips - maintain a straight line from head to heels"
          (hip_y > shoulder_y + 20) (1/4)
          "Raise your hips - avoid sagging in the middle" (1, [])
      else (1, [])
    | _, _, _, _ => (1, [])
  -- Check elbow angle
  let left_elbow := amGet angles "left_elbow"
  let right_elbow := amGet angles "right_elbow"
  let acc2 : α × List String :=
    if pyTruthy left_elbow && pyTruthy right_elbow then
      let avg_elbow_angle := (pyVal left_elbow + pyVal right_elbow) / 2
      let stage := detect_exercise_stage "push_up" angles
      if stage = "down" then
        check_fire2 (avg_elbow_angle < 70) (3/20)
          "You're going too deep - aim for 90° at the elbow"
          (avg_elbow_angle > 110) (1/5)
          "Go lower - aim for 90° at the elbow" acc1
      else if stage = "up" then
        check_fire (avg_elbow_angle < 160) (3/20)
          "Fully extend your arms at the top of the push-up" acc1
      else acc1
    else acc1
  -- Check if legs are straight and together
  let acc3 : α × List String :=
    match left_ankle, right_ankle with
    | some lap, some rap =>
      let ankle_dist : ℝ :=
        Real.sqrt (((lap.x : ℝ) - (rap.x : ℝ)) ^ 2 +
          ((lap.y : ℝ) - (rap.y : ℝ)) ^ 2)
      check_fire (ankle_dist > 50) (1/10)
        "Keep your legs together for better stability" acc2
    | _, _ => acc2
  -- Add positive feedback if form is good, then clamp the score
  finalize "Great push-up form! Maintain a straight body line." acc3

/-- `_analyze_squat`: form score and feedback for a squat, five checks in
order (knee depth in the down stage, knee-over-toe, torso lean, stance
width, knee cave), then the affirmative message and the clamp. -/
def analyze_squat (kps : Frame) (angles : AngleMap α) : α × List String :=
  let left_hip := get_point kps "left_hip"
  let right_hip := get_point kps "right_hip"
  let left_knee := get_point kps "left_knee"
  let right_knee := get_point kps "right_knee"
  let left_ankle := get_point kps "left_ankle"
  let right_ankle := get_point kps "right_ankle"
  -- (the source also fetches the two shoulder points but never uses them)
  -- Check knee angles for depth
  let left_knee_angle := amGet angles "left_knee"
  let right_knee_angle := amGet angles "right_knee"
  let acc1 : α × List String :=
    if pyTruthy left_knee_angle && pyTruthy right_knee_angle then
      let avg_knee_angle := (pyVal left_knee_angle + pyVal right_knee_angle) / 2
      let stage := detect_exercise_stage "squat" angles
      if stage = "down" then
        check_fire2 (avg_knee_angle > 140) (1/4)
          "Squat deeper - aim for thighs parallel to the ground"
          (avg_knee_angle < 70) (3/20)
          "You're squatting too deep - be careful with your knees" (1, [])
      else (1, [])
    else (1, [])
  -- Check knee position (should not extend past toes)
  let acc2 : α × List String :=
    match left_knee, left_ankle, right_knee, right_ankle with
    | some lkp, some lap, some rkp, some rap =>
      let left_knee_past_toes := lkp.x > lap.x + 30
      let right_knee_past_toes := rkp.x > rap.x + 30
      check_fire (left_knee_past_toes ∨ right_knee_past_toes) (1/5)
        "Keep your knees behind your toes" acc1
    | _, _, _, _ => acc1
  -- Check back angle
  let torso_vertical := amGet angles "torso_vertical"
  let acc3 : α × List String :=
    if pyTruthy torso_vertical then
      check_fire (pyVal torso_vertical > 45) (3/20)
        "Keep your chest up and back more upright" acc2
    else acc2
  -- Check foot stance
  let acc4 : α × List String :=
    match left_ankle, right_ankle with
    | some lap, some rap =>
      let ankle_dist := |lap.x - rap.x|
      let hip_width : ℚ :=
        match left_hip, right_hip with
        | some lhp, some rhp => |lhp.x - rhp.x|
        | _, _ => 100
      check_fire2 (ankle_dist < hip_width * (4/5)) (1/10)
        "Widen your stance to shoulder width or slightly wider"
        (ankle_dist > hip_width * (9/5)) (1/10)
        "Narrow your stance slightly" acc3
    | _, _ => acc3
  -- Check if knees are aligned with feet (not caving in)
  let acc5 : α × List String :=
    match left_knee, right_knee, left_hip, right_hip with
    | some lkp, some rkp, some lhp, some rhp =>
      let knee_width := |lkp.x - rkp.x|
      let hip_width := |lhp.x - rhp.x|
      check_fire (knee_width < hip_width * (3/5)) (3/20)
        "Keep your knees in line with your toes - don't let them cave inward"
        acc4
    | _, _, _, _ => acc4
  -- Add positive feedback if form is good, then clamp the score
  finalize "Excellent squat form! Keep your weight in your heels." acc5

/-- `_analyze_plank`: form score and feedback for a plank, three checks in
order (hip/shoulder alignment, ankle/hip alignment, elbow under shoulder),
then the affirmative message and the clamp. -/
noncomputable def analyze_plank (kps : Frame) (angles : AngleMap α) :
    α × List String :=
  let left_shoulder := get_point kps "left_shoulder"
  let right_shoulder := get_point kps "right_shoulder"
  let left_hip := get_point kps "left_hip"
  let right_hip := get_point kps "right_hip"
  let left_ankle := get_point kps "left_ankle"
  let right_ankle := get_point kps "right_ankle"
  let left_elbow := get_point kps "left_elbow"
  let right_elbow := get_point kps "right_elbow"
  -- Check if body is in a straight line
  let acc1 : α × List String :=
    match left_shoulder, right_shoulder, left_hip, right_hip with
    | some lsp, some rsp, some lhp, some rhp =>
      let shoulder_y := (lsp.y + rsp.y) / 2
      let hip_y := (lhp.y + rhp.y) / 2
      if |shoulder_y - hip_y| > 30 then
        check_fire2 (hip_y < shoulder_y - 20) (1/4)
          "Lower your hips - your body should form a straight line"
          (hip_y > shoulder_y + 20) (1/4)
          "Raise your hips - don't let them sag toward the ground" (1, [])
      else (1, [])
    | _, _, _, _ => (1, [])
  -- Check if ankles are in line with body
  let acc2 : α × List String :=
    match left_ankle, right_ankle, left_hip, right_hip with
    | some lap, some rap, some lhp, some rhp =>
      let ankle_y := (lap.y + rap.y) / 2
      let hip_y := (lhp.y + rhp.y) / 2
      check_fire (|ankle_y - hip_y| > 30) (3/20)
        "Keep your legs straight and in line with your body" acc1
    | _, _, _, _ => acc1
  -- Check elbow position
  let acc3 : α × List String :=
    match left_elbow, right_elbow, left_shoulder, right_shoulder with
    | some lep, some rep, some lsp, some rsp =>
      let left_dist : ℝ :=
        Real.sqrt (((lep.x : ℝ) - (lsp.x : ℝ)) ^ 2 +
          ((lep.y : ℝ) - (lsp.y : ℝ)) ^ 2)
      let right_dist : ℝ :=
        Real.sqrt (((rep.x : ℝ) - (rsp.x : ℝ)) ^ 2 +
          ((rep.y : ℝ) - (rsp.y : ℝ)) ^ 2)
      check_fire (left_dist > 40 ∨ right_dist > 40) (3/20)
        "Position your elbows directly under your shoulders" acc2
    | _, _, _, _ => acc2
  -- Add positive feedback if form is good, then clamp the score
  finalize "Great plank form! Keep your core engaged and breathe steadily." acc3

/-- `_analyze_jumping_jack`: short-circuits with score `0.5` when any of the
eight relevant landmarks is missing; otherwise runs the stage-dependent
checks and the hip-level check, then the stage-dependent affirmative message
and the clamp. -/
def analyze_jumping_jack (kps : Frame) (angles : AngleMap α) :
    α × List String :=
  let left_shoulder := get_point kps "left_shoulder"
  let right_shoulder := get_point kps "right_shoulder"
  let left_hip := get_point kps "left_hip"
  let right_hip := get_point kps "right_hip"
  let left_ankle := get_point kps "left_ankle"
  let right_ankle := get_point kps "right_ankle"
  let left_wrist := get_point kps "left_wrist"
  let right_wrist := get_point kps "right_wrist"
  match left_shoulder, right_shoulder, left_hip, right_hip,
    left_ankle, right_ankle, left_wrist, right_wrist with
  | some lsp, some rsp, some lhp, some rhp, some lap, some rap,
      some lwp, some rwp =>
    -- Detect stage
    let stage := detect_exercise_stage "jumping_jack" angles
    -- Analyze "up" position (arms up, legs apart)
    let acc1 : α × List String :=
      if stage = "up" then
        let left_arm_raised := lwp.y < lsp.y
        let right_arm_raised := rwp.y < rsp.y
        let accA : α × List String :=
          check_fire (¬ (left_arm_raised ∧ right_arm_raised)) (1/5)
            "Raise your arms fully above your head" (1, [])
        let ankle_distance := |lap.x - rap.x|
        let hip_distance := |lhp.x - rhp.x|
        check_fire (ankle_distance < hip_distance) (3/20)
          "Jump wider with your feet" accA
      -- Analyze "down" position (arms down, legs together)
      else if stage = "down" then
        let left_arm_down := lwp.y > lhp.y
        let right_arm_down := rwp.y > rhp.y
        let accA : α × List String :=
          check_fire (¬ (left_arm_down ∧ right_arm_down)) (3/20)
            "Bring your arms fully down by your sides" (1, [])
        let ankle_distance := |lap.x - rap.x|
        check_fire (ankle_distance > 30) (3/20)
          "Bring your feet together between jumps" accA
      else (1, [])
    -- Check overall posture (the source also computes unused shoulder_y, hip_y)
    let acc2 : α × List String :=
      check_fire (|lhp.y - rhp.y| > 20) (1/10)
        "Keep your hips level during the exercise" acc1
    -- Add positive feedback if form is good (by stage), then clamp the score
    finalize
      (if stage = "up" then "Great form! Full extension of arms and legs."
       else "Good control on the landing! Maintain rhythm.") acc2
  | _, _, _, _, _, _, _, _ =>
    (1/2, ["Cannot fully analyze jumping jack - not all key points detected"])

/-- `self.exercise_types`: the exercise-name-to-analyzer dictionary built in
`__init__`. -/
noncomputable def exercise_types (t : String) :
    Option (Frame → AngleMap α → α × List String) :=
  if t = "push_up" then some analyze_push_up
  else if t = "squat" then some analyze_squat
  else if t = "plank" then some analyze_plank
  else if t = "jumping_jack" then some analyze_jumping_jack
  else none

/-- Claim C2 as written (spec §4.3): "for every exercise type a missing
angle is treated as 180° for the threshold comparisons", with the four
threshold rules.  Used only to exhibit the divergence from
`detect_exercise_stage`. -/
def detect_exercise_stage_claim (exercise_type : String)
    (angles : AngleMap α) : String :=
  if exercise_type = "push_up" then
    let avg := ((amGet angles "left_elbow").getD 180 +
      (amGet angles "right_elbow").getD 180) / 2
    if avg < 100 then "down" else if avg > 160 then "up" else "neutral"
  else if exercise_type = "squat" then
    let avg := ((amGet angles "left_knee").getD 180 +
      (amGet angles "right_knee").getD 180) / 2
    if avg < 120 then "down" else if avg > 160 then "up" else "neutral"
  else if exercise_type = "jumping_jack" then
    let avg := ((amGet angles "left_shoulder").getD 180 +
      (amGet angles "right_shoulder").getD 180) / 2
    if avg > 80 then "up" else if avg < 30 then "down" else "neutral"
  else "neutral"

/-- The amended C2 claim: for push_up and squat an angle key absent from the
map defaults to 180°, but an angle recorded as uncomputable (`None`) or as
exactly 0° forces the whole average to 180°; for jumping_jack an absent,
uncomputable or 0° shoulder angle forces "neutral"; thresholds as in the
original claim; plank and unknown types are always "neutral". -/
def detect_exercise_stage_amended (exercise_type : String)
    (angles : AngleMap α) : String :=
  if exercise_type = "push_up" then
    let avg : α :=
      match amGetD angles "left_elbow" 180, amGetD angles "right_elbow" 180 with
      | some l, some r => if l = 0 ∨ r = 0 then 180 else (l + r) / 2
      | _, _ => 180
    if avg < 100 then "down" else if avg > 160 then "up" else "neutral"
  else if exercise_type = "squat" then
    let avg : α :=
      match amGetD angles "left_knee" 180, amGetD angles "right_knee" 180 with
      | some l, some r => if l = 0 ∨ r = 0 then 180 else (l + r) / 2
      | _, _ => 180
    if avg < 120 then "down" else if avg > 160 then "up" else "neutral"
  else if exercise_type = "jumping_jack" then
    match amGetD angles "left_shoulder" 0, amGetD angles "right_shoulder" 0 with
    | some l, some r =>
      if l = 0 ∨ r = 0 then "neutral"
      else
        let avg := (l + r) / 2
        if avg > 80 then "up" else if avg < 30 then "down" else "neutral"
    | _, _ => "neutral"
  else "neutral"

/-- Claim C3 as written: the classifier's four ordered rules, where rule 1
fires whenever both elbow angles are present in the map (zero or not) and
rule 2 needs only the two knee angles (not the knee landmarks).  Used only
to exhibit the divergence from `detect_exercise_type`. -/
def detect_exercise_type_claim (kps : Frame) (angles : AngleMap α) :
    Option String :=
  match get_point kps "left_shoulder", get_point kps "right_shoulder",
    get_point kps "left_hip", get_point kps "right_hip" with
  | some lsp, some rsp, some lhp, some rhp =>
    let rule1 : Option String :=
      if |(lsp.y + rsp.y) / 2 - (lhp.y + rhp.y) / 2| < 30 then
        match amGet angles "left_elbow", amGet angles "right_elbow" with
        | some l, some r =>
          some (if (l + r) / 2 < 120 then "push_up" else "plank")
        | _, _ => none
      else none
    let rule2 : Option String :=
      match amGet angles "left_knee", amGet angles "right_knee" with
      | some l, some r => if (l + r) / 2 < 160 then some "squat" else none
      | _, _ => none
    let rule3 : Option String :=
      if |lsp.x - rsp.x| > |lhp.x - rhp.x| * (3 / 2) then some "jumping_jack"
      else none
    rule_chain rule1 rule2 rule3
  | _, _, _, _ => none

/-- The amended C3 claim: as the original, except that rule 1 requires both
elbow angles to be present *and nonzero* (otherwise it falls through), and
rule 2 additionally requires both knee landmarks to be present and both knee
angles to be present and nonzero. -/
def detect_exercise_type_amended (kps : Frame) (angles : AngleMap α) :
    Option String :=
  match get_point kps "left_shoulder", get_point kps "right_shoulder",
    get_point kps "left_hip", get_point kps "right_hip" with
  | some lsp, some rsp, some lhp, some rhp =>
    let rule1 : Option String :=
      if |(lsp.y + rsp.y) / 2 - (lhp.y + rhp.y) / 2| < 30 then
        match amGet angles "left_elbow", amGet angles "right_elbow" with
        | some l, some r =>
          if l = 0 ∨ r = 0 then none
          else some (if (l + r) / 2 < 120 then "push_up" else "plank")
        | _, _ => none
      else none
    let rule2 : Option String :=
      if (get_point kps "left_knee").isSome ∧
          (get_point kps "right_knee").isSome then
        match amGet angles "left_knee", amGet angles "right_knee" with
        | some l, some r =>
          if l = 0 ∨ r = 0 then none
          else if (l + r) / 2 < 160 then some "squat" else none
        | _, _ => none
      else none
    let rule3 : Option String :=
      if |lsp.x - rsp.x| > |lhp.x - rhp.x| * (3 / 2) then some "jumping_jack"
      else none
    rule_chain rule1 rule2 rule3
  | _, _, _, _ => none

/-- Two optional angle values that Python truthiness cannot tell apart:
equal truthiness, and equal values when truthy. -/
def pyEquiv (a b : Option α) : Prop :=
  pyTruthy a = pyTruthy b ∧ (pyTruthy a = true → a = b)

/-- The invariant threaded through an analyzer's scoring rules: the score
never exceeds 1, equals 1 exactly while no rule has fired, and sits at or
below 9/10 once the feedback list is non-empty. -/
def RuleInv (p : α × List String) : Prop :=
  p.1 ≤ 1 ∧ (p.2 = [] → p.1 = 1) ∧ (p.2 ≠ [] → p.1 ≤ 9/10)

/-- A well-formed scoring result: score in `[0, 1]`, non-empty feedback,
and a single (affirmative) message whenever the score is exactly 1. -/
def ResultWF (p : α × List String) : Prop :=
  0 ≤ p.1 ∧ p.1 ≤ 1 ∧ p.2 ≠ [] ∧ (p.1 = 1 → p.2.length = 1)

end Decisions

/-- A uniform translation of every landmark of a frame by `(dx, dy)`;
confidences are untouched. -/
def shift_point (dx dy : ℚ) (p : Point) : Point :=
  { x := p.x + dx, y := p.y + dy, score := p.score }

/-- Translate all landmarks of a frame by the constant offset `(dx, dy)`. -/
def translate_frame (dx dy : ℚ) (kps : Frame) : Frame :=
  kps.map (shift_point dx dy)

/-- The assessment record `analyze_exercise` returns.  `stage = none` models
the absence of the `"stage"` key from the Python response dict. -/
structure Response (α : Type) where
  exercise_detected : Bool
  exercise_type : String
  form_score : α
  feedback : List String
  joint_angles : AngleMap α
  stage : Option String

/-- Python `detected_type or "unknown"`: `None` and the empty string both
fall back to the default. -/
def pyStrOr (o : Option String) (d : String) : String :=
  match o with
  | none => d
  | some s => if s = "" then d else s

section Facade

variable {α : Type} [LinearOrderedField α]

/-- The body of `analyze_exercise` after the angle map has been computed:
optional-hint handling (a `None` or empty hint runs the classifier), the
default response, and the dispatch through `exercise_types`. -/
noncomputable def analyze_core (kps : Frame) (angles : AngleMap α)
    (exercise_type : Option String) : Response α :=
  let detected_type : Option String :=
    match exercise_type with
    | none => detect_exercise_type kps angles
    | some s => if s = "" then detect_exercise_type kps angles else some s
  let response0 : Response α :=
    { exercise_detected := detected_type.isSome
      exercise_type := pyStrOr detected_type "unknown"
      form_score := 0
      feedback := ["No valid exercise detected"]
      joint_angles := angles
      stage := none }
  match detected_type with
  | some t =>
    match exercise_types (α := α) t with
    | some f =>
      let r := f kps angles
      { response0 with
          form_score := r.1
          feedback := r.2
          stage := some (detect_exercise_stage t angles) }
    | none => response0
  | none => response0

end Facade

/-- `analyze_exercise`: the analysis facade.  Computes the joint angles and
then runs classification, scoring and stage detection on them. -/
noncomputable def analyze_exercise (kps : Frame) (hint : Option String) :
    Response ℝ :=
  analyze_core kps (calculate_joint_angles kps) hint

/-! Helper lemmas. -/

section Helpers

variable {α : Type} [LinearOrderedField α]

lemma pyTruthy_none : pyTruthy (none : Option α) = false := rfl

lemma pyTruthy_some {v : α} : pyTruthy (some v) = true ↔ v ≠ 0 := by
  simp [pyTruthy]

lemma pyTruthy_some_zero : pyTruthy (some (0 : α)) = false := by
  simp [pyTruthy]

lemma amGetD_of_amGet {β : Type} {m : AngleMap β} {k : String} {v : β}
    (d : β) (h : amGet m k = some v) : amGetD m k d = some v := by
  induction m with
  | nil => simp [amGet] at h
  | cons p rest ih =>
    rw [amGet] at h
    rw [amGetD]
    split at h
    · rw [if_pos (by assumption)]
      exact h
    · rw [if_neg (by assumption)]
      exact ih h

lemma pyTruthy_amGetD_zero {m : AngleMap α} {k : String} :
    pyTruthy (amGetD m k 0) = pyTruthy (amGet m k) := by
  induction m with
  | nil => simp [amGet, amGetD, pyTruthy]
  | cons p rest ih =>
    rw [amGet, amGetD]
    split
    · rfl
    · exact ih

lemma amGetD_zero_of_truthy {m : AngleMap α} {k : String}
    (h : pyTruthy (amGet m k) = true) : amGetD m k 0 = amGet m k := by
  induction m with
  | nil => simp [amGet, pyTruthy] at h
  | cons p rest ih =>
    rw [amGet] at h ⊢
    rw [amGetD]
    by_cases hk : p.1 = k
    · simp only [if_pos hk]
    · simp only [if_neg hk] at h ⊢
      exact ih h

lemma rule_chain_congr {a b c d e f : Option String} (h1 : a = d)
    (h2 : b = e) (h3 : c = f) : rule_chain a b c = rule_chain d e f := by
  rw [h1, h2, h3]

lemma ruleInv_init : RuleInv ((1 : α), ([] : List String)) := by
  refine ⟨le_refl 1, fun _ => rfl, fun h => absurd rfl h⟩

lemma ruleInv_fire {pen : α} {msg : String} {acc : α × List String}
    (hpen : 1/10 ≤ pen) (h1 : acc.1 ≤ 1) :
    RuleInv (acc.1 - pen, acc.2 ++ [msg]) := by
  refine ⟨?_, ?_, ?_⟩
  · show acc.1 - pen ≤ 1
    linarith
  · intro hc
    exact absurd hc (by simp)
  · intro _
    show acc.1 - pen ≤ 9/10
    linarith

lemma ruleInv_check_fire {c : Prop} [Decidable c] {pen : α} {msg : String}
    {acc : α × List String} (hpen : 1/10 ≤ pen) (h : RuleInv acc) :
    RuleInv (check_fire c pen msg acc) := by
  unfold check_fire
  split
  · exact ruleInv_fire hpen h.1
  · exact h

lemma ruleInv_check_fire2 {c1 c2 : Prop} [Decidable c1] [Decidable c2]
    {pen1 pen2 : α} {msg1 msg2 : String} {acc : α × List String}
    (hpen1 : 1/10 ≤ pen1) (hpen2 : 1/10 ≤ pen2) (h : RuleInv acc) :
    RuleInv (check_fire2 c1 pen1 msg1 c2 pen2 msg2 acc) := by
  unfold check_fire2
  split
  · exact ruleInv_fire hpen1 h.1
  · split
    · exact ruleInv_fire hpen2 h.1
    · exact h

lemma resultWF_finalize {acc : α × List String} {affirm : String}
    (h : RuleInv acc) : ResultWF (finalize affirm acc) := by
  obtain ⟨h1, h2, h3⟩ := h
  simp only [finalize]
  by_cases hfb : acc.2 = []
  · rw [if_pos hfb]
    have hs : acc.1 = 1 := h2 hfb
    rw [hs]
    refine ⟨?_, ?_, by simp, fun _ => rfl⟩ <;> norm_num
  · rw [if_neg hfb]
    have h9 : acc.1 ≤ 9/10 := h3 hfb
    refine ⟨le_max_left 0 _, ?_, hfb, fun hone => ?_⟩
    · exact max_le (by norm_num) (min_le_left 1 _)
    · have hone2 : max 0 (min 1 acc.1) = 1 := hone
      have hle : max 0 (min 1 acc.1) ≤ 9/10 :=
        max_le (by norm_num) (le_trans (min_le_right 1 _) h9)
      rw [hone2] at hle
      norm_num at hle

lemma resultWF_elim {p : α × List String} (h : ResultWF p) :
    0 ≤ p.1 ∧ p.1 ≤ 1 ∧ p.2 ≠ [] ∧ (p.1 = 1 → p.2.length = 1) := h

lemma check_fire_of_neg {c : Prop} [Decidable c] (h : ¬ c) (pen : α)
    (msg : String) (acc : α × List String) :
    check_fire c pen msg acc = acc := by
  simp [check_fire, h]

lemma check_fire2_of_neg {c1 c2 : Prop} [Decidable c1] [Decidable c2]
    (h1 : ¬ c1) (h2 : ¬ c2) (pen1 pen2 : α) (msg1 msg2 : String)
    (acc : α × List String) :
    check_fire2 c1 pen1 msg1 c2 pen2 msg2 acc = acc := by
  simp [check_fire2, h1, h2]

lemma finalize_perfect (affirm : String) :
    finalize affirm ((1 : α), ([] : List String)) = (1, [affirm]) := by
  simp [finalize]

lemma resultWF_shortcircuit :
    ResultWF ((1/2 : α),
      ["Cannot fully analyze jumping jack - not all key points detected"]) := by
  refine ⟨by norm_num, by norm_num, by simp, fun h => ?_⟩
  norm_num at h

lemma analyze_push_up_wf (kps : Frame) (angles : AngleMap α) :
    ResultWF (analyze_push_up kps angles) := by
  simp only [analyze_push_up]
  apply resultWF_finalize
  repeat' first
    | exact ruleInv_init
    | apply ruleInv_check_fire (by norm_num)
    | apply ruleInv_check_fire2 (by norm_num) (by norm_num)
    | split

lemma analyze_squat_wf (kps : Frame) (angles : AngleMap α) :
    ResultWF (analyze_squat kps angles) := by
  simp only [analyze_squat]
  apply resultWF_finalize
  repeat' first
    | exact ruleInv_init
    | apply ruleInv_check_fire (by norm_num)
    | apply ruleInv_check_fire2 (by norm_num) (by norm_num)
    | split

lemma analyze_plank_wf (kps : Frame) (angles : AngleMap α) :
    ResultWF (analyze_plank kps angles) := by
  simp only [analyze_plank]
  apply resultWF_finalize
  repeat' first
    | exact ruleInv_init
    | apply ruleInv_check_fire (by norm_num)
    | apply ruleInv_check_fire2 (by norm_num) (by norm_num)
    | split

lemma analyze_jumping_jack_wf (kps : Frame) (angles : AngleMap α) :
    ResultWF (analyze_jumping_jack kps angles) := by
  simp only [analyze_jumping_jack]
  split
  all_goals first
    | exact resultWF_shortcircuit
    | (apply resultWF_finalize
       repeat' first
         | exact ruleInv_init
         | apply ruleInv_check_fire (by norm_num)
         | apply ruleInv_check_fire2 (by norm_num) (by norm_num)
         | split)

end Helpers

/-! Claim theorems. -/

/-- C5: for every frame and every recognized exercise type (an entry of the
`exercise_types` registry), the scoring engine returns a form score clamped
to `[0, 1]` and a non-empty feedback list; the score is exactly 1 only when
no rule fired, in which case the feedback is the single affirmative
message. -/
theorem c5_scoring_bounds {α : Type} [LinearOrderedField α] (t : String)
    (f : Frame → AngleMap α → α × List String)
    (hf : exercise_types t = some f) (kps : Frame) (angles : AngleMap α) :
    0 ≤ (f kps angles).1 ∧ (f kps angles).1 ≤ 1 ∧ (f kps angles).2 ≠ [] ∧
      ((f kps angles).1 = 1 → (f kps angles).2.length = 1) := by
  unfold exercise_types at hf
  split_ifs at hf
  · injection hf with hf2
    subst hf2
    exact resultWF_elim (analyze_push_up_wf kps angles)
  · injection hf with hf2
    subst hf2
    exact resultWF_elim (analyze_squat_wf kps angles)
  · injection hf with hf2
    subst hf2
    exact resultWF_elim (analyze_plank_wf kps angles)
  · injection hf with hf2
    subst hf2
    exact resultWF_elim (analyze_jumping_jack_wf kps angles)

/-- C5 witness: the squat analyzer, a registry entry, on a concrete empty
frame and angle map. -/
theorem c5_witness :
    0 ≤ (analyze_squat ([] : Frame) ([] : AngleMap ℚ)).1 ∧
      (analyze_squat ([] : Frame) ([] : AngleMap ℚ)).1 ≤ 1 ∧
      (analyze_squat ([] : Frame) ([] : AngleMap ℚ)).2 ≠ [] ∧
      ((analyze_squat ([] : Frame) ([] : AngleMap ℚ)).1 = 1 →
        (analyze_squat ([] : Frame) ([] : AngleMap ℚ)).2.length = 1) :=
  c5_scoring_bounds "squat" analyze_squat (by simp +decide [exercise_types]) [] []

/-- C6: the engine never aborts: a degenerate zero-length vector in the
angle computation degrades to angle-absence (`none`), and every analysis
call returns a well-formed assessment (score in `[0, 1]`, non-empty
feedback) — the worst case is the undetected response, never an exception. -/
theorem c6_no_raise :
    (∀ p1 p2 p3 : Point,
        (p1.x = p2.x ∧ p1.y = p2.y) ∨ (p3.x = p2.x ∧ p3.y = p2.y) →
        calculate_angle (some p1) (some p2) (some p3) = none) ∧
    (∀ (kps : Frame) (hint : Option String),
        0 ≤ (analyze_exercise kps hint).form_score ∧
        (analyze_exercise kps hint).form_score ≤ 1 ∧
        (analyze_exercise kps hint).feedback ≠ []) := by
  constructor
  · intro p1 p2 p3 h
    rcases h with ⟨hx, hy⟩ | ⟨hx, hy⟩ <;> simp [calculate_angle, hx, hy]
  · intro kps hint
    simp only [analyze_exercise, analyze_core]
    generalize (match hint with
      | none => detect_exercise_type kps (calculate_joint_angles kps)
      | some s =>
        if s = "" then detect_exercise_type kps (calculate_joint_angles kps)
        else some s) = d
    match d with
    | none => refine ⟨le_refl 0, by norm_num, by simp⟩
    | some t =>
      rcases hE : exercise_types (α := ℝ) t with _ | f
      · simp only [hE]
        refine ⟨le_refl 0, by norm_num, by simp⟩
      · simp only [hE]
        have hWF : ResultWF (f kps (calculate_joint_angles kps)) := by
          unfold exercise_types at hE
          split_ifs at hE <;> injection hE with hE2
          · subst hE2; exact analyze_push_up_wf kps _
          · subst hE2; exact analyze_squat_wf kps _
          · subst hE2; exact analyze_plank_wf kps _
          · subst hE2; exact analyze_jumping_jack_wf kps _
        obtain ⟨hw1, hw2, hw3, _⟩ := hWF
        exact ⟨hw1, hw2, hw3⟩

/-- C2 counterexample: on an empty angle map, jumping-jack stage detection
returns "neutral" (shoulder angles default to 0, which is falsy), while the
claim — missing angles treated as 180° for every exercise type, average
180 > 80 — demands "up". -/
theorem c2_counterexample :
    detect_exercise_stage "jumping_jack" ([] : AngleMap ℚ) = "neutral" ∧
      detect_exercise_stage_claim "jumping_jack" ([] : AngleMap ℚ) = "up" := by
  constructor <;>
    norm_num +decide [detect_exercise_stage, detect_exercise_stage_claim,
      amGet, amGetD, pyTruthy, pyVal]

/-- C2 amended: stage detection equals the amended rule set — push_up and
squat default an *absent* angle key to 180° but send the average to 180°
when an angle is recorded as `None` or 0°; jumping_jack defaults absent
shoulder keys to 0° and any absent/`None`/0° shoulder angle forces
"neutral"; thresholds as in the original claim; plank is always neutral. -/
theorem c2_stage_amended {α : Type} [LinearOrderedField α] (t : String)
    (m : AngleMap α) :
    detect_exercise_stage t m = detect_exercise_stage_amended t m := by
  unfold detect_exercise_stage detect_exercise_stage_amended
  by_cases h1 : t = "push_up"
  · simp only [if_pos h1]
    rcases amGetD m "left_elbow" 180 with _ | l <;>
      rcases amGetD m "right_elbow" 180 with _ | r <;>
      simp [pyTruthy, pyVal]
    by_cases hl : l = 0 <;> by_cases hr : r = 0 <;> simp [hl, hr]
  · simp only [if_neg h1]
    by_cases h2 : t = "squat"
    · simp only [if_pos h2]
      rcases amGetD m "left_knee" 180 with _ | l <;>
        rcases amGetD m "right_knee" 180 with _ | r <;>
        simp [pyTruthy, pyVal]
      by_cases hl : l = 0 <;> by_cases hr : r = 0 <;> simp [hl, hr]
    · simp only [if_neg h2]
      by_cases h3 : t = "jumping_jack"
      · simp only [if_pos h3]
        rcases amGetD m "left_shoulder" 0 with _ | l <;>
          rcases amGetD m "right_shoulder" 0 with _ | r <;>
          simp [pyTruthy, pyVal]
        by_cases hl : l = 0 <;> by_cases hr : r = 0 <;> simp [hl, hr]
      · simp only [if_neg h3]

/-- C3 counterexample: a 13-landmark frame with a horizontal torso
(shoulder/hip Δy = 25 < 30) whose left elbow angle is exactly 0° and right
elbow angle 160°.  The claim's rule 1 ("both elbow angles present") fires
with average 80° < 120° and classifies push_up; the code's truthiness test
treats the 0° angle as unavailable, falls through rules 2 and 3 (shoulder
width 100 is not > 1.5 × hip width 100), and returns undetected. -/
theorem c3_counterexample :
    detect_exercise_type
        [⟨0, 0, none⟩, ⟨0, 0, none⟩, ⟨0, 0, none⟩, ⟨0, 0, none⟩,
         ⟨0, 0, none⟩, ⟨0, 0, none⟩, ⟨100, 0, none⟩, ⟨0, 0, none⟩,
         ⟨0, 0, none⟩, ⟨0, 0, none⟩, ⟨0, 0, none⟩, ⟨0, 25, none⟩,
         ⟨100, 25, none⟩]
        [("left_elbow", some (0 : ℚ)), ("right_elbow", some 160)] = none ∧
      detect_exercise_type_claim
        [⟨0, 0, none⟩, ⟨0, 0, none⟩, ⟨0, 0, none⟩, ⟨0, 0, none⟩,
         ⟨0, 0, none⟩, ⟨0, 0, none⟩, ⟨100, 0, none⟩, ⟨0, 0, none⟩,
         ⟨0, 0, none⟩, ⟨0, 0, none⟩, ⟨0, 0, none⟩, ⟨0, 25, none⟩,
         ⟨100, 25, none⟩]
        [("left_elbow", some (0 : ℚ)), ("right_elbow", some 160)] =
        some "push_up" := by
  constructor <;>
    norm_num +decide [detect_exercise_type, detect_exercise_type_claim,
      get_point, joint_indices, amGet, pyTruthy, pyVal, List.get?]

/-- C3 amended: the classifier equals the amended rule set — as the original
claim, except that rule 1 needs both elbow angles present *and nonzero*
(falling through otherwise) and rule 2 needs both knee landmarks present
and both knee angles present and nonzero. -/
theorem c3_type_amended {α : Type} [LinearOrderedField α] (kps : Frame)
    (m : AngleMap α) :
    detect_exercise_type kps m = detect_exercise_type_amended kps m := by
  simp only [detect_exercise_type, detect_exercise_type_amended]
  rcases get_point kps "left_shoulder" with _ | lsp <;>
    rcases get_point kps "right_shoulder" with _ | rsp <;>
    rcases get_point kps "left_hip" with _ | lhp <;>
    rcases get_point kps "right_hip" with _ | rhp <;>
    try rfl
  refine rule_chain_congr ?_ ?_ rfl
  · -- rule 1
    by_cases ht : |(lsp.y + rsp.y) / 2 - (lhp.y + rhp.y) / 2| < 30
    · simp only [if_pos ht]
      rcases amGet m "left_elbow" with _ | l <;>
        rcases amGet m "right_elbow" with _ | r <;>
        simp [pyTruthy, pyVal]
      by_cases hl : l = 0 <;> by_cases hr : r = 0 <;>
        simp [hl, hr, apply_ite]
    · simp only [if_neg ht]
  · -- rule 2
    rcases get_point kps "left_knee" with _ | lkp <;>
      rcases get_point kps "right_knee" with _ | rkp <;>
      simp only [Option.isSome_none, Option.isSome_some, Bool.false_and,
        Bool.and_false, Bool.and_self, Bool.false_eq_true, if_false,
        false_and, and_false, and_self, if_true, if_neg, reduceIte]
    rcases amGet m "left_knee" with _ | lk <;>
      rcases amGet m "right_knee" with _ | rk <;>
      simp [pyTruthy, pyVal]
    by_cases hl : lk = 0 <;> by_cases hr : rk = 0 <;>
      simp [hl, hr]

/-- C9: angle presence is tested by numeric truthiness, so a 0° angle
behaves exactly like an absent one: (1) `some 0` and `none` are
truthiness-equivalent; (2) the classifier cannot distinguish two angle maps
whose entries are pairwise truthiness-equivalent (hence rule 1 falls through
and rule 2 does not fire for a 0° elbow/knee angle exactly as for a missing
one); (3) a falsy (0°, `None` or missing) shoulder angle forces the
jumping-jack stage to "neutral". -/
theorem c9_zero_behaves_missing {α : Type} [LinearOrderedField α] :
    pyEquiv (some (0 : α)) (none : Option α) ∧
      (∀ (kps : Frame) (m₁ m₂ : AngleMap α),
        (∀ k, pyEquiv (amGet m₁ k) (amGet m₂ k)) →
        detect_exercise_type kps m₁ = detect_exercise_type kps m₂) ∧
      (∀ m : AngleMap α,
        pyTruthy (amGet m "left_shoulder") = false ∨
          pyTruthy (amGet m "right_shoulder") = false →
        detect_exercise_stage "jumping_jack" m = "neutral") := by
  refine ⟨⟨by simp [pyTruthy], by simp [pyTruthy]⟩, ?_, ?_⟩
  · intro kps m₁ m₂ h
    simp only [detect_exercise_type]
    rcases get_point kps "left_shoulder" with _ | lsp <;>
      rcases get_point kps "right_shoulder" with _ | rsp <;>
      rcases get_point kps "left_hip" with _ | lhp <;>
      rcases get_point kps "right_hip" with _ | rhp <;>
      try rfl
    refine rule_chain_congr ?_ ?_ rfl
    · -- rule 1
      have h1 := (h "left_elbow").1
      have h2 := (h "right_elbow").1
      by_cases ht : |(lsp.y + rsp.y) / 2 - (lhp.y + rhp.y) / 2| < 30
      · simp only [if_pos ht]
        cases hbL : pyTruthy (amGet m₁ "left_elbow") with
        | false =>
          rw [hbL] at h1
          simp [hbL, ← h1]
        | true =>
          rw [(h "left_elbow").2 hbL]
          cases hbR : pyTruthy (amGet m₁ "right_elbow") with
          | false =>
            rw [hbR] at h2
            simp [hbR, ← h2]
          | true =>
            rw [(h "right_elbow").2 hbR]
            simp [h1.symm.trans hbL, h2.symm.trans hbR]
      · simp only [if_neg ht]
    · -- rule 2
      have h1 := (h "left_knee").1
      have h2 := (h "right_knee").1
      by_cases hkp : ((get_point kps "left_knee").isSome &&
          (get_point kps "right_knee").isSome) = true
      · simp only [if_pos hkp]
        cases hbL : pyTruthy (amGet m₁ "left_knee") with
        | false =>
          rw [hbL] at h1
          simp [hbL, ← h1]
        | true =>
          rw [(h "left_knee").2 hbL]
          cases hbR : pyTruthy (amGet m₁ "right_knee") with
          | false =>
            rw [hbR] at h2
            simp [hbR, ← h2]
          | true =>
            rw [(h "right_knee").2 hbR]
            simp [h1.symm.trans hbL, h2.symm.trans hbR]
      · simp only [if_neg hkp]
  · intro m h
    simp only [detect_exercise_stage]
    rw [if_neg (by decide : ¬ ("jumping_jack" : String) = "push_up"),
      if_neg (by decide : ¬ ("jumping_jack" : String) = "squat")]
    simp only [eq_self_iff_true, if_true]
    rw [pyTruthy_amGetD_zero, pyTruthy_amGetD_zero]
    rcases h with h | h <;> simp [h]

/-- C9 witness: a 13-landmark horizontal-torso frame where replacing a 0°
left elbow angle by an absent one leaves the classification unchanged, and
a concrete falsy shoulder angle forcing the jumping-jack stage neutral. -/
theorem c9_witness :
    detect_exercise_type
        [⟨0, 0, none⟩, ⟨0, 0, none⟩, ⟨0, 0, none⟩, ⟨0, 0, none⟩,
         ⟨0, 0, none⟩, ⟨0, 0, none⟩, ⟨100, 0, none⟩, ⟨0, 0, none⟩,
         ⟨0, 0, none⟩, ⟨0, 0, none⟩, ⟨0, 0, none⟩, ⟨0, 25, none⟩,
         ⟨100, 25, none⟩]
        [("left_elbow", some (0 : ℚ)), ("right_elbow", some 160)] =
      detect_exercise_type
        [⟨0, 0, none⟩, ⟨0, 0, none⟩, ⟨0, 0, none⟩, ⟨0, 0, none⟩,
         ⟨0, 0, none⟩, ⟨0, 0, none⟩, ⟨100, 0, none⟩, ⟨0, 0, none⟩,
         ⟨0, 0, none⟩, ⟨0, 0, none⟩, ⟨0, 0, none⟩, ⟨0, 25, none⟩,
         ⟨100, 25, none⟩]
        [("right_elbow", some (160 : ℚ))] ∧
      detect_exercise_stage "jumping_jack"
        [("left_shoulder", some (0 : ℚ))] = "neutral" := by
  constructor
  · apply c9_zero_behaves_missing.2.1
    intro k
    simp only [amGet]
    by_cases h1 : ("left_elbow" : String) = k
    · subst h1
      refine ⟨?_, ?_⟩ <;> norm_num +decide [pyEquiv, pyTruthy]
    · by_cases h2 : ("right_elbow" : String) = k
      · subst h2
        simp +decide [pyEquiv]
      · simp [h1, h2, pyEquiv]
  · apply c9_zero_behaves_missing.2.2
    left
    norm_num +decide [amGet, pyTruthy]

/-- C8: every frame scored as a squat with average knee angle 100° (both
knee angles computed, hence in [0°, 180°]), torso_vertical 20°, ankle
distance equal to hip width (stance ratio 1.0), knees not past toes and not
caving in, is staged "down", collects no penalty, scores exactly 1.0 and
gets exactly the affirmative squat message. -/
theorem c8_squat_scenario {α : Type} [LinearOrderedField α]
    (kps : Frame) (angles : AngleMap α) (lk rk : α)
    (lhp rhp lkp rkp lap rap : Point)
    (hlk : amGet angles "left_knee" = some lk)
    (hrk : amGet angles "right_knee" = some rk)
    (hlklo : 0 ≤ lk) (hlkhi : lk ≤ 180) (hrklo : 0 ≤ rk) (hrkhi : rk ≤ 180)
    (havg : (lk + rk) / 2 = 100)
    (htv : amGet angles "torso_vertical" = some 20)
    (hLH : get_point kps "left_hip" = some lhp)
    (hRH : get_point kps "right_hip" = some rhp)
    (hLK : get_point kps "left_knee" = some lkp)
    (hRK : get_point kps "right_knee" = some rkp)
    (hLA : get_point kps "left_ankle" = some lap)
    (hRA : get_point kps "right_ankle" = some rap)
    (htoe1 : ¬ lkp.x > lap.x + 30) (htoe2 : ¬ rkp.x > rap.x + 30)
    (hstance : |lap.x - rap.x| = |lhp.x - rhp.x|)
    (hcave : ¬ |lkp.x - rkp.x| < |lhp.x - rhp.x| * (3/5)) :
    detect_exercise_stage "squat" angles = "down" ∧
      analyze_squat kps angles =
        (1, ["Excellent squat form! Keep your weight in your heels."]) := by
  have hlk0 : lk ≠ 0 := by
    intro h0
    rw [h0] at havg
    have : rk = 200 := by linarith
    linarith
  have hrk0 : rk ≠ 0 := by
    intro h0
    rw [h0] at havg
    have : lk = 200 := by linarith
    linarith
  have hTk : pyTruthy (some lk) = true := pyTruthy_some.mpr hlk0
  have hTr : pyTruthy (some rk) = true := pyTruthy_some.mpr hrk0
  have hT20 : pyTruthy (some (20 : α)) = true :=
    pyTruthy_some.mpr (by norm_num)
  have hstage : detect_exercise_stage "squat" angles = "down" := by
    simp only [detect_exercise_stage]
    rw [if_neg (by decide : ¬ ("squat" : String) = "push_up")]
    simp only [eq_self_iff_true, if_true]
    rw [amGetD_of_amGet 180 hlk, amGetD_of_amGet 180 hrk]
    simp only [hTk, hTr, Bool.and_self, if_true, pyVal, Option.getD_some,
      if_pos]
    rw [if_pos (by rw [havg]; norm_num : (lk + rk) / 2 < 120)]
  refine ⟨hstage, ?_⟩
  simp only [analyze_squat, hlk, hrk, htv, hLH, hRH, hLK, hRK, hLA, hRA,
    hstage, hTk, hTr, hT20, Bool.and_self, if_true, pyVal, Option.getD_some,
    eq_self_iff_true]
  rw [check_fire2_of_neg
    (show ¬ (lk + rk) / 2 > 140 by rw [havg]; norm_num)
    (show ¬ (lk + rk) / 2 < 70 by rw [havg]; norm_num)]
  rw [check_fire_of_neg (not_or.mpr ⟨htoe1, htoe2⟩)]
  rw [check_fire_of_neg (by norm_num : ¬ (20 : α) > 45)]
  rw [hstance]
  have hw0 : 0 ≤ |lhp.x - rhp.x| := abs_nonneg _
  rw [check_fire2_of_neg
    (show ¬ |lhp.x - rhp.x| < |lhp.x - rhp.x| * (4/5) by linarith)
    (show ¬ |lhp.x - rhp.x| > |lhp.x - rhp.x| * (9/5) by linarith)]
  rw [check_fire_of_neg hcave]
  exact finalize_perfect _

/-- C8 witness: a concrete 17-landmark frame (hips at x = 0 and 10, knees
above ankles, ankle distance 10 = hip width) with knee angles 100°/100° and
torso_vertical 20°. -/
theorem c8_witness :
    detect_exercise_stage "squat"
        [("left_knee", some (100 : ℚ)), ("right_knee", some 100),
         ("torso_vertical", some 20)] = "down" ∧
      analyze_squat
        [⟨0, 0, none⟩, ⟨0, 0, none⟩, ⟨0, 0, none⟩, ⟨0, 0, none⟩,
         ⟨0, 0, none⟩, ⟨0, 0, none⟩, ⟨10, 0, none⟩, ⟨0, 0, none⟩,
         ⟨0, 0, none⟩, ⟨0, 0, none⟩, ⟨0, 0, none⟩, ⟨0, 0, none⟩,
         ⟨10, 0, none⟩, ⟨0, 25, none⟩, ⟨10, 25, none⟩, ⟨0, 50, none⟩,
         ⟨10, 50, none⟩]
        [("left_knee", some (100 : ℚ)), ("right_knee", some 100),
         ("torso_vertical", some 20)] =
        (1, ["Excellent squat form! Keep your weight in your heels."]) := by
  refine c8_squat_scenario _ _ 100 100 ⟨0, 0, none⟩ ⟨10, 0, none⟩
    ⟨0, 25, none⟩ ⟨10, 25, none⟩ ⟨0, 50, none⟩ ⟨10, 50, none⟩
    ?_ ?_ (by norm_num) (by norm_num) (by norm_num) (by norm_num)
    (by norm_num) ?_ ?_ ?_ ?_ ?_ ?_ ?_ (by norm_num) (by norm_num)
    (by norm_num) (by norm_num) <;>
    norm_num +decide [amGet, get_point, joint_indices, List.get?]

/-- C10: a non-empty hint that is not one of the four registered exercise
types yields a response with `exercise_detected = true`, form score 0, the
single "No valid exercise detected" message, and no stage field; an
empty-string hint behaves exactly like no hint (classification runs). -/
theorem c10_unknown_hint :
    (∀ (kps : Frame) (hint : String),
        hint ≠ "push_up" → hint ≠ "squat" → hint ≠ "plank" →
        hint ≠ "jumping_jack" → hint ≠ "" →
        analyze_exercise kps (some hint) =
          { exercise_detected := true
            exercise_type := hint
            form_score := 0
            feedback := ["No valid exercise detected"]
            joint_angles := calculate_joint_angles kps
            stage := none }) ∧
      (∀ kps : Frame,
        analyze_exercise kps (some "") = analyze_exercise kps none) := by
  constructor
  · intro kps hint h1 h2 h3 h4 h5
    simp only [analyze_exercise, analyze_core]
    rw [if_neg h5]
    simp only [exercise_types]
    rw [if_neg h1, if_neg h2, if_neg h3, if_neg h4]
    simp [pyStrOr, h5]
  · intro kps
    simp only [analyze_exercise, analyze_core]
    simp only [eq_self_iff_true, if_true]

/-- C10 witness: the unknown hint "yoga" on an empty frame, and the
empty-string hint agreeing with the no-hint call. -/
theorem c10_witness :
    analyze_exercise [] (some "yoga") =
        { exercise_detected := true
          exercise_type := "yoga"
          form_score := 0
          feedback := ["No valid exercise detected"]
          joint_angles := calculate_joint_angles []
          stage := none } ∧
      analyze_exercise [] (some "") = analyze_exercise [] none :=
  ⟨c10_unknown_hint.1 [] "yoga" (by decide) (by decide) (by decide)
      (by decide) (by decide),
    c10_unknown_hint.2 []⟩

/-- C4: `calculate_angle` is absent exactly when a landmark is missing, a
present confidence is below 0.2, or a vector has zero magnitude; any present
value equals the arccosine (in degrees) of the clamped normalized dot
product and lies in `[0, 180]`. -/
theorem c4_angle_characterization (q1 q2 q3 : Point) :
    (calculate_angle (some q1) (some q2) (some q3) = none ↔
      (low_conf q1 = true ∨ low_conf q2 = true ∨ low_conf q3 = true) ∨
        ((q1.x = q2.x ∧ q1.y = q2.y) ∨ (q3.x = q2.x ∧ q3.y = q2.y))) ∧
      (∀ θ : ℝ, calculate_angle (some q1) (some q2) (some q3) = some θ →
        θ = Real.arccos (max (-1) (min 1
            ((((q1.x : ℝ) - (q2.x : ℝ)) * ((q3.x : ℝ) - (q2.x : ℝ)) +
              ((q1.y : ℝ) - (q2.y : ℝ)) * ((q3.y : ℝ) - (q2.y : ℝ))) /
              (Real.sqrt (((q1.x : ℝ) - (q2.x : ℝ)) ^ 2 +
                  ((q1.y : ℝ) - (q2.y : ℝ)) ^ 2) *
                Real.sqrt (((q3.x : ℝ) - (q2.x : ℝ)) ^ 2 +
                  ((q3.y : ℝ) - (q2.y : ℝ)) ^ 2))))) *
            (180 / Real.pi) ∧
          0 ≤ θ ∧ θ ≤ 180) ∧
      (∀ o1 o2 o3 : Option Point, o1 = none ∨ o2 = none ∨ o3 = none →
        calculate_angle o1 o2 o3 = none) := by
  have hsqrt : ∀ a b c d : ℝ,
      Real.sqrt (a ^ 2 + b ^ 2) * Real.sqrt (c ^ 2 + d ^ 2) = 0 ↔
        (a = 0 ∧ b = 0) ∨ (c = 0 ∧ d = 0) := by
    intro a b c d
    rw [mul_eq_zero,
      Real.sqrt_eq_zero (by positivity : (0:ℝ) ≤ a ^ 2 + b ^ 2),
      Real.sqrt_eq_zero (by positivity : (0:ℝ) ≤ c ^ 2 + d ^ 2),
      add_eq_zero_iff_of_nonneg (sq_nonneg a) (sq_nonneg b),
      add_eq_zero_iff_of_nonneg (sq_nonneg c) (sq_nonneg d),
      sq_eq_zero_iff, sq_eq_zero_iff, sq_eq_zero_iff, sq_eq_zero_iff]
  refine ⟨?_, ?_, ?_⟩
  · simp only [calculate_angle]
    by_cases hconf : (low_conf q1 || low_conf q2 || low_conf q3) = true
    · rw [if_pos hconf]
      simp only [Bool.or_eq_true] at hconf
      exact iff_of_true rfl (Or.inl (by tauto))
    · rw [if_neg hconf]
      simp only [Bool.or_eq_true, not_or, Bool.not_eq_true] at hconf
      by_cases hmag :
          Real.sqrt (((q1.x : ℝ) - (q2.x : ℝ)) ^ 2 +
              ((q1.y : ℝ) - (q2.y : ℝ)) ^ 2) *
            Real.sqrt (((q3.x : ℝ) - (q2.x : ℝ)) ^ 2 +
              ((q3.y : ℝ) - (q2.y : ℝ)) ^ 2) = 0
      · rw [if_pos hmag]
        rw [hsqrt] at hmag
        simp only [sub_eq_zero, Rat.cast_inj] at hmag
        exact iff_of_true rfl (Or.inr hmag)
      · rw [if_neg hmag]
        refine iff_of_false (by simp) ?_
        rintro (hc | hv)
        · rcases hconf with ⟨⟨hc1, hc2⟩, hc3⟩
          rcases hc with hc | hc | hc
          · rw [hc] at hc1
            exact Bool.noConfusion hc1
          · rw [hc] at hc2
            exact Bool.noConfusion hc2
          · rw [hc] at hc3
            exact Bool.noConfusion hc3
        · apply hmag
          rw [hsqrt]
          simpa only [sub_eq_zero, Rat.cast_inj] using hv
  · intro θ hθ
    simp only [calculate_angle] at hθ
    by_cases hconf : (low_conf q1 || low_conf q2 || low_conf q3) = true
    · rw [if_pos hconf] at hθ
      exact absurd hθ (by simp)
    · rw [if_neg hconf] at hθ
      by_cases hmag :
          Real.sqrt (((q1.x : ℝ) - (q2.x : ℝ)) ^ 2 +
              ((q1.y : ℝ) - (q2.y : ℝ)) ^ 2) *
            Real.sqrt (((q3.x : ℝ) - (q2.x : ℝ)) ^ 2 +
              ((q3.y : ℝ) - (q2.y : ℝ)) ^ 2) = 0
      · rw [if_pos hmag] at hθ
        exact absurd hθ (by simp)
      · rw [if_neg hmag] at hθ
        have hθ2 := (Option.some.inj hθ).symm
        refine ⟨hθ2, ?_, ?_⟩
        · rw [hθ2]
          exact mul_nonneg (Real.arccos_nonneg _) (by positivity)
        · rw [hθ2]
          have h1 := Real.arccos_le_pi (max (-1) (min 1
            ((((q1.x : ℝ) - (q2.x : ℝ)) * ((q3.x : ℝ) - (q2.x : ℝ)) +
              ((q1.y : ℝ) - (q2.y : ℝ)) * ((q3.y : ℝ) - (q2.y : ℝ))) /
              (Real.sqrt (((q1.x : ℝ) - (q2.x : ℝ)) ^ 2 +
                  ((q1.y : ℝ) - (q2.y : ℝ)) ^ 2) *
                Real.sqrt (((q3.x : ℝ) - (q2.x : ℝ)) ^ 2 +
                  ((q3.y : ℝ) - (q2.y : ℝ)) ^ 2)))))
          have h2 : Real.pi * (180 / Real.pi) = 180 := by
            field_simp
          calc Real.arccos _ * (180 / Real.pi) ≤
              Real.pi * (180 / Real.pi) :=
                mul_le_mul_of_nonneg_right h1 (by positivity)
            _ = 180 := h2
  · intro o1 o2 o3 h
    rcases h with h | h | h
    · subst h
      cases o2 <;> cases o3 <;> rfl
    · subst h
      cases o1 <;> cases o3 <;> rfl
    · subst h
      cases o1 <;> cases o2 <;> rfl

/-- C4 witness: the right angle at the origin between (1,0) and (0,1):
cosine 0, arccos 0 = π/2, i.e. 90°, inside `[0, 180]`. -/
theorem c4_witness :
    calculate_angle (some ⟨1, 0, none⟩) (some ⟨0, 0, none⟩)
        (some ⟨0, 1, none⟩) = some 90 ∧
      0 ≤ (90 : ℝ) ∧ (90 : ℝ) ≤ 180 := by
  have h90 : calculate_angle (some ⟨1, 0, none⟩) (some ⟨0, 0, none⟩)
      (some ⟨0, 1, none⟩) = some 90 := by
    simp only [calculate_angle, low_conf]
    norm_num [Real.sqrt_one, Real.arccos_zero]
    field_simp
    ring
  have h := (c4_angle_characterization ⟨1, 0, none⟩ ⟨0, 0, none⟩
    ⟨0, 1, none⟩).2.1 90 h90
  exact ⟨h90, h.2.1, h.2.2⟩

lemma get_point_translate (dx dy : ℚ) (kps : Frame) (name : String) :
    get_point (translate_frame dx dy kps) name =
      (get_point kps name).map (shift_point dx dy) := by
  unfold get_point translate_frame
  cases joint_indices name with
  | none => rfl
  | some i => exact List.get?_map (shift_point dx dy) kps i

lemma calculate_angle_shift (dx dy : ℚ) (p1 p2 p3 : Option Point) :
    calculate_angle (p1.map (shift_point dx dy)) (p2.map (shift_point dx dy))
      (p3.map (shift_point dx dy)) = calculate_angle p1 p2 p3 := by
  cases p1 with
  | none => cases p2 <;> cases p3 <;> rfl
  | some q1 =>
    cases p2 with
    | none => cases p3 <;> rfl
    | some q2 =>
      cases p3 with
      | none => rfl
      | some q3 =>
        simp only [Option.map_some']
        simp only [calculate_angle, shift_point, low_conf]
        have e1 : ((q1.x + dx : ℚ) : ℝ) - ((q2.x + dx : ℚ) : ℝ) =
            (q1.x : ℝ) - (q2.x : ℝ) := by push_cast; ring
        have e2 : ((q1.y + dy : ℚ) : ℝ) - ((q2.y + dy : ℚ) : ℝ) =
            (q1.y : ℝ) - (q2.y : ℝ) := by push_cast; ring
        have e3 : ((q3.x + dx : ℚ) : ℝ) - ((q2.x + dx : ℚ) : ℝ) =
            (q3.x : ℝ) - (q2.x : ℝ) := by push_cast; ring
        have e4 : ((q3.y + dy : ℚ) : ℝ) - ((q2.y + dy : ℚ) : ℝ) =
            (q3.y : ℝ) - (q2.y : ℝ) := by push_cast; ring
        rw [e1, e2, e3, e4]

/-- C7: the joint angle map is invariant under a uniform translation of all
landmarks — present angles keep their values, absent angles stay absent, and
torso_vertical (whose synthetic vertical point follows the left hip) is
unchanged as well. -/
theorem c7_translation_invariance (kps : Frame) (dx dy : ℚ) :
    calculate_joint_angles (translate_frame dx dy kps) =
      calculate_joint_angles kps := by
  have hlen : (translate_frame dx dy kps).length = kps.length :=
    List.length_map _ _
  simp only [calculate_joint_angles, hlen, get_point_translate]
  by_cases h17 : kps.length < 17
  · rw [if_pos h17, if_pos h17]
  · rw [if_neg h17, if_neg h17]
    simp only [calculate_angle_shift]
    rcases get_point kps "left_shoulder" with _ | ls <;>
      rcases get_point kps "left_hip" with _ | lh <;>
      simp only [Option.map_some', Option.map_none']
    have hv : (⟨(shift_point dx dy lh).x,
        (shift_point dx dy lh).y - 100, some 1⟩ : Point) =
        shift_point dx dy ⟨lh.x, lh.y - 100, some 1⟩ := by
      simp only [shift_point, Point.mk.injEq]
      refine ⟨trivial, by ring, trivial⟩
    rw [hv]
    have htorso := calculate_angle_shift dx dy
      (some (⟨lh.x, lh.y - 100, some 1⟩ : Point))
      (some lh) (some ls)
    simp only [Option.map_some'] at htorso
    rw [htorso]


/-- C1 amended: a frame with fewer than 17 landmarks produces an empty
joint-angle map, but the engine emits no typed invalid-input signal — it
still runs classification on the raw landmarks.  When even the hips are
missing (at most 12 landmarks, e.g. the 10-landmark scenario) the result is
the ordinary undetected response. -/
theorem c1_short_frame :
    (∀ kps : Frame, kps.length < 17 → calculate_joint_angles kps = []) ∧
      (∀ kps : Frame, kps.length ≤ 12 →
        analyze_exercise kps none =
          { exercise_detected := false
            exercise_type := "unknown"
            form_score := 0
            feedback := ["No valid exercise detected"]
            joint_angles := []
            stage := none }) := by
  have hempty : ∀ kps : Frame, kps.length < 17 →
      calculate_joint_angles kps = [] := by
    intro kps h
    simp only [calculate_joint_angles]
    rw [if_pos h]
  refine ⟨hempty, ?_⟩
  intro kps h
  have h17 : kps.length < 17 := lt_of_le_of_lt h (by norm_num)
  have hji : joint_indices "right_hip" = some 12 := by decide
  have hrh : get_point kps "right_hip" = none := by
    simp only [get_point, hji]
    exact List.get?_eq_none.mpr h
  have hdet : detect_exercise_type kps ([] : AngleMap ℝ) = none := by
    simp only [detect_exercise_type, hrh]
    rcases get_point kps "left_shoulder" with _ | lsp <;>
      rcases get_point kps "right_shoulder" with _ | rsp <;>
      rcases get_point kps "left_hip" with _ | lhp <;>
      rfl
  simp only [analyze_exercise, hempty kps h17, analyze_core, hdet]
  rfl

/-- C1 witness: the 10-landmark scenario frame — empty angle map and the
undetected response. -/
theorem c1_witness :
    calculate_joint_angles [⟨0, 0, none⟩, ⟨0, 0, none⟩, ⟨0, 0, none⟩, ⟨0, 0, none⟩, ⟨0, 0, none⟩, ⟨0, 0, none⟩, ⟨0, 0, none⟩, ⟨0, 0, none⟩, ⟨0, 0, none⟩, ⟨0, 0, none⟩] = [] ∧
      analyze_exercise [⟨0, 0, none⟩, ⟨0, 0, none⟩, ⟨0, 0, none⟩, ⟨0, 0, none⟩, ⟨0, 0, none⟩, ⟨0, 0, none⟩, ⟨0, 0, none⟩, ⟨0, 0, none⟩, ⟨0, 0, none⟩, ⟨0, 0, none⟩] none =
        { exercise_detected := false
          exercise_type := "unknown"
          form_score := 0
          feedback := ["No valid exercise detected"]
          joint_angles := []
          stage := none } :=
  ⟨c1_short_frame.1 _ (by norm_num), c1_short_frame.2 _ (by norm_num)⟩

/-- C1 counterexample: a 13-landmark frame (hips present, ankles and knees
missing) is not rejected with a typed invalid-input outcome: classification
still runs on the raw landmarks and guesses jumping_jack (shoulder width
100 > 1.5 × hip width 20), so the response reports a detected exercise with
score 0.5 — contradicting "a typed invalid-input signal, not a guessed
classification". -/
theorem c1_counterexample :
    analyze_exercise [⟨0, 0, none⟩, ⟨0, 0, none⟩, ⟨0, 0, none⟩, ⟨0, 0, none⟩, ⟨0, 0, none⟩, ⟨0, 0, none⟩, ⟨100, 0, none⟩, ⟨0, 0, none⟩, ⟨0, 0, none⟩, ⟨0, 0, none⟩, ⟨0, 0, none⟩, ⟨40, 25, none⟩, ⟨60, 25, none⟩] none =
      { exercise_detected := true
        exercise_type := "jumping_jack"
        form_score := 1/2
        feedback :=
          ["Cannot fully analyze jumping jack - not all key points detected"]
        joint_angles := []
        stage := some "neutral" } := by
  have hang : calculate_joint_angles [⟨0, 0, none⟩, ⟨0, 0, none⟩, ⟨0, 0, none⟩, ⟨0, 0, none⟩, ⟨0, 0, none⟩, ⟨0, 0, none⟩, ⟨100, 0, none⟩, ⟨0, 0, none⟩, ⟨0, 0, none⟩, ⟨0, 0, none⟩, ⟨0, 0, none⟩, ⟨40, 25, none⟩, ⟨60, 25, none⟩] = [] := by
    simp only [calculate_joint_angles]
    norm_num
  have hdet : detect_exercise_type [⟨0, 0, none⟩, ⟨0, 0, none⟩, ⟨0, 0, none⟩, ⟨0, 0, none⟩, ⟨0, 0, none⟩, ⟨0, 0, none⟩, ⟨100, 0, none⟩, ⟨0, 0, none⟩, ⟨0, 0, none⟩, ⟨0, 0, none⟩, ⟨0, 0, none⟩, ⟨40, 25, none⟩, ⟨60, 25, none⟩] ([] : AngleMap ℝ) =
      some "jumping_jack" := by
    norm_num +decide [detect_exercise_type, get_point, joint_indices, amGet,
      pyTruthy, pyVal, List.get?]
  have hjj : analyze_jumping_jack [⟨0, 0, none⟩, ⟨0, 0, none⟩, ⟨0, 0, none⟩, ⟨0, 0, none⟩, ⟨0, 0, none⟩, ⟨0, 0, none⟩, ⟨100, 0, none⟩, ⟨0, 0, none⟩, ⟨0, 0, none⟩, ⟨0, 0, none⟩, ⟨0, 0, none⟩, ⟨40, 25, none⟩, ⟨60, 25, none⟩] ([] : AngleMap ℝ) =
      (1/2,
       ["Cannot fully analyze jumping jack - not all key points detected"]) := by
    norm_num +decide [analyze_jumping_jack, get_point, joint_indices,
      List.get?]
  have hstage : detect_exercise_stage "jumping_jack" ([] : AngleMap ℝ) =
      "neutral" := by
    norm_num +decide [detect_exercise_stage, amGetD, pyTruthy]
  simp only [analyze_exercise, hang, analyze_core, hdet, hjj, hstage]
  norm_num +decide [exercise_types, pyStrOr, hjj]

/-- C6 witness: a degenerate vertex (point 1 coincides with the vertex) and
a concrete facade call. -/
theorem c6_witness :
    calculate_angle (some ⟨0, 0, none⟩) (some ⟨0, 0, none⟩)
        (some ⟨1, 1, none⟩) = none ∧
      (0 ≤ (analyze_exercise [] none).form_score ∧
        (analyze_exercise [] none).form_score ≤ 1 ∧
        (analyze_exercise [] none).feedback ≠ []) :=
  ⟨c6_no_raise.1 ⟨0, 0, none⟩ ⟨0, 0, none⟩ ⟨1, 1, none⟩ (Or.inl ⟨rfl, rfl⟩),
    c6_no_raise.2 [] none⟩
